import Mathlib

/-!
Shallow embedding of `src/voidnx-tui.c` (VOID FORTRESS TUI installer front-end).

The program is a single-threaded ncurses menu wizard.  We embed its pure
decision logic: the session-state record, the main-menu navigation arithmetic,
the disk-selection parsing and range check, the confirmation dialog, the
hostname/username prompt updates, the log-view windowing, the command-runner
output loop, the installer command-string construction, and the pre-flight
gates of `main`.  External effects (terminal drawing, pipes, files) are
modelled by passing their observable data explicitly: the disk-listing
subprocess's output as a list of raw lines, keyboard line reads as strings,
`getch` key codes as integers, the log file as a list of raw lines, and the
screen height (`LINES`) as a natural number.
-/

namespace VoidTUI

/-- The global `installer_state_t` record (fields `disk`, `hostname`,
`username`, `timezone`, `phase`; the two `*_check` ints are never read
after initialization and are omitted). -/
structure InstallerState where
  disk : String
  hostname : String
  username : String
  timezone : String
  phase : String
  deriving Repr, DecidableEq

/-- The initializer of the global `state` variable. -/
def initState : InstallerState :=
  { disk := ""
    hostname := "void-fortress"
    username := "nx"
    timezone := "America/Sao_Paulo"
    phase := "NOT_STARTED" }

/-- C `isspace` for the default locale, as used by `atoi`. -/
def isSpaceC (c : Char) : Bool :=
  c = ' ' || c = '\t' || c = '\n' || c = '\x0b' || c = '\x0c' || c = '\r'

/-- Value of the longest digit prefix of `cs`, accumulating onto `acc`
(the digit-consuming loop inside C `atoi`). -/
def digitsVal : List Char → Int → Int
  | [], acc => acc
  | c :: cs, acc =>
    if c.isDigit then digitsVal cs (10 * acc + (c.toNat - 48)) else acc

/-- C `atoi`: skip leading whitespace, optional sign, longest digit prefix;
0 when no digits.  (Mathematical integers; the C int-overflow behaviour is
undefined and not modelled.) -/
def atoi (s : String) : Int :=
  match s.data.dropWhile isSpaceC with
  | '-' :: rest => - digitsVal rest 0
  | '+' :: rest => digitsVal rest 0
  | l => digitsVal l 0

/-- `String.mk (s.data.take n)`: the effect of bounded C copies
(`snprintf` with buffer size `n+1`, `strncpy` with count `n` into a
zero-padded buffer). -/
def trunc (n : Nat) (s : String) : String := String.mk (s.data.take n)

/-- `strtok(line, " \t")`: first token of a raw listing line, `none` when the
line consists only of spaces/tabs.  Raw lines are as returned by `fgets`
(trailing newline included; a newline is not a `strtok` delimiter here). -/
def firstTok (line : String) : Option String :=
  match (line.data.dropWhile fun c => c = ' ' || c = '\t').takeWhile
      (fun c => !(c = ' ' || c = '\t')) with
  | [] => none
  | t => some (String.mk t)

/-- The disk array built by `disk_selection` from the raw output lines of the
listing subprocess: for each line with a first token `name`, the entry
`snprintf(disks[i], MAX_PATH, "/dev/%s", name)` (truncated to 255 chars);
at most `MAX_DISKS = 32` entries (loop guard `disk_count < MAX_DISKS`). -/
def parseDisks (lines : List String) : List String :=
  (lines.filterMap fun l => (firstTok l).map fun t => trunc 255 ("/dev/" ++ t)).take 32

/-- `disk_selection`: parse the listing into `disks`, read `input`, compute
`choice = atoi(input) - 1`; when `0 <= choice < disk_count`, copy the chosen
entry into `state->disk` and return 0, otherwise leave the state alone and
return -1.  When the listing subprocess cannot be started (`popen` fails) the
caller passes `lines = []`. -/
def diskSelection (lines : List String) (input : String) (st : InstallerState) :
    InstallerState × Int :=
  if 0 ≤ atoi input - 1 ∧ atoi input - 1 < ((parseDisks lines).length : Int) then
    ({ st with disk := (parseDisks lines).getD (atoi input - 1).toNat "" }, 0)
  else
    (st, -1)

/-- `getch` code of the key `y`. -/
def keyLowerY : Int := (('y' : Char).toNat : Int)

/-- `getch` code of the key `Y`. -/
def keyUpperY : Int := (('Y' : Char).toNat : Int)

/-- `confirm_dialog`: returns `(ch == 'y' || ch == 'Y') ? 1 : 0` for the one
key code read by `getch`. -/
def confirmDialog (ch : Int) : Int :=
  if ch = keyLowerY ∨ ch = keyUpperY then 1 else 0

/-- The hostname/username prompt logic of `main`:
`if (strlen(buf) > 0) strncpy(field, buf, MAX_PATH - 1);` — an empty line is
a no-op, a non-empty line overwrites the field with the read line, bounded by
the 255-character `strncpy` count (the field buffer's byte 255 is always 0). -/
def promptUpdate (prior input : String) : String :=
  if input.length > 0 then trunc 255 input else prior

/-- `line[strcspn(line, "\n")] = 0`: truncate a raw line at its first
newline character. -/
def stripNL (line : String) : String :=
  String.mk (line.data.takeWhile fun c => c ≠ '\n')

/-- The printing loop of `view_log`:
`while (fgets(...) && line_num < LINES - 3) { if (current >= start_line) {
strip; print; line_num++; } current++; }`, returning the printed lines. -/
def viewLogLoop : List String → Nat → Nat → Nat → Nat → List String
  | [], _, _, _, _ => []
  | l :: ls, current, startLine, lineNum, rows =>
    if lineNum < rows - 3 then
      if startLine ≤ current then
        stripNL l :: viewLogLoop ls (current + 1) startLine (lineNum + 1) rows
      else
        viewLogLoop ls (current + 1) startLine lineNum rows
    else []

/-- `view_log` on a present log file whose raw `fgets` lines are `fileLines`,
on a screen of `rows` = `LINES` total rows: count `total_lines`, set
`start_line = total > 20 ? total - 20 : 0`, rewind, and run the printing loop
from `line_num = 13`.  Returns the list of displayed lines. -/
def viewLog (fileLines : List String) (rows : Nat) : List String :=
  viewLogLoop fileLines 0
    (if fileLines.length > 20 then fileLines.length - 20 else 0) 13 rows

/-- The output loop of `run_command`:
`while (fgets(line, ..., fp) && y < LINES - 3) { strip; print; y++; }`.
Returns the displayed lines together with the number of lines actually read
from the pipe (a line read while `y` is already at the limit is consumed but
not displayed, and the loop then stops reading). -/
def runLoop : List String → Nat → Nat → List String × Nat
  | [], _, _ => ([], 0)
  | l :: ls, y, rows =>
    if y < rows - 3 then
      ((runLoop ls (y + 1) rows).1.cons (stripNL l), (runLoop ls (y + 1) rows).2 + 1)
    else
      ([], 1)

/-- `run_command` on a started subprocess whose complete stdout consists of
the lines `output`, on a screen of `rows` total rows: the loop starts at
`y = 5`.  After the loop the code calls `pclose` (which waits for the child
to terminate but reads nothing further) and then blocks on `getch`. -/
def runCommand (output : List String) (rows : Nat) : List String × Nat :=
  runLoop output 5 rows

/-- The installer command string built in `main`, case 1:
`snprintf(cmd, 256, "DISK=%s HOSTNAME=%s USERNAME=%s TIMEZONE=%s bash voidnx.sh", ...)`
(truncated to 255 characters by the `snprintf` bound). -/
def buildCmd (st : InstallerState) : String :=
  trunc 255 ("DISK=" ++ st.disk ++ " HOSTNAME=" ++ st.hostname ++
    " USERNAME=" ++ st.username ++ " TIMEZONE=" ++ st.timezone ++ " bash voidnx.sh")

/-- The `case 1` ("New Installation") branch of `main`'s dispatch switch:
disk selection, then on success the destructive-action confirmation, then on
confirmation the hostname and username prompts and the installer invocation.
Returns the resulting session state and the command string passed to
`run_command` (or `none` when no command is run). -/
def newInstallation (lines : List String) (diskInput : String) (confirmKey : Int)
    (hostIn userIn : String) (st : InstallerState) : InstallerState × Option String :=
  if (diskSelection lines diskInput st).2 = 0 then
    if confirmDialog confirmKey = 1 then
      (({ (diskSelection lines diskInput st).1 with
            hostname := promptUpdate (diskSelection lines diskInput st).1.hostname hostIn,
            username := promptUpdate (diskSelection lines diskInput st).1.username userIn },
        some (buildCmd
          { (diskSelection lines diskInput st).1 with
              hostname := promptUpdate (diskSelection lines diskInput st).1.hostname hostIn,
              username := promptUpdate (diskSelection lines diskInput st).1.username userIn })))
    else ((diskSelection lines diskInput st).1, none)
  else ((diskSelection lines diskInput st).1, none)

/-- After `case 1` runs, `choice = 0; break;` and the `while (running)` loop
re-enters `show_main_menu`; only `case 9` sets `running = 0`. -/
def runningAfterChoice (choice : Int) : Bool :=
  if choice = 9 then false else true

/-- Outcome of process startup in `main`: the exit status, the message
printed to standard error (if any), and whether the terminal surface was
initialized (`init_ncurses` reached).  `main` has exactly three `return`
statements: `return 1` at each failed pre-flight gate (before
`init_ncurses`) and the final `return 0` after the interactive loop ends. -/
structure MainStartResult where
  exitCode : Nat
  stderrMsg : Option String
  uiShown : Bool
  deriving Repr, DecidableEq

/-- The pre-flight gates of `main` (`geteuid() != 0` and missing
`/sys/firmware/efi`), followed by the interactive session that always ends
with `return 0` when the user exits. -/
def preflightMain (isRoot uefiOk : Bool) : MainStartResult :=
  if !isRoot then
    { exitCode := 1, stderrMsg := some "Error: Must run as root", uiShown := false }
  else if !uefiOk then
    { exitCode := 1, stderrMsg := some "Error: Boot in UEFI mode required", uiShown := false }
  else
    { exitCode := 0, stderrMsg := none, uiShown := true }

/-- Main-menu navigation state update for one `getch` event in
`show_main_menu` (only KEY_UP and KEY_DOWN move the selection). -/
inductive NavKey where
  | up
  | down
  deriving Repr, DecidableEq

/-- `num_options` in `show_main_menu` (nine menu entries). -/
def numOptions : Int := 9

/-- One navigation step: `selected = (selected - 1 + num_options) % num_options`
on KEY_UP, `selected = (selected + 1) % num_options` on KEY_DOWN. -/
def navStep (selected : Int) : NavKey → Int
  | NavKey.up => (selected - 1 + numOptions) % numOptions
  | NavKey.down => (selected + 1) % numOptions

/-- The selection reached from the initial `static int selected = 0` after a
sequence of Up/Down events. -/
def navRun (keys : List NavKey) : Int := keys.foldl navStep 0

/-- The substring-containment relation used to state the end-to-end command
claim. -/
def containsSub (sub s : String) : Prop := ∃ pre post, s = pre ++ sub ++ post

/-- Modelled from the spec's words for comparison with the code: "the input
is a numeral k" — a non-empty all-digit string, with its decimal value. -/
def numeralValue (s : String) : Option Nat :=
  if s.data ≠ [] ∧ s.data.all Char.isDigit then
    some (s.data.foldl (fun acc c => 10 * acc + (c.toNat - 48)) 0)
  else none

/-- The raw listing lines of the 3-entry disk list in end-to-end scenario 1. -/
def scenario1Lines : List String :=
  ["sda    100G Samsung SSD 870\n", "sdb     50G Kingston A400\n", "sdc      8G SanDisk Ultra\n"]

end VoidTUI

namespace VoidTUI

/-! ### Helper lemmas -/

theorem trunc_of_le (n : Nat) (s : String) (h : s.length ≤ n) : trunc n s = s := by
  have h' : s.data.length ≤ n := h
  unfold trunc
  rw [List.take_of_length_le h']

theorem string_length_mk (l : List Char) : (String.mk l).length = l.length := rfl

theorem length_pos_of_ne_empty (s : String) (h : s ≠ "") : 0 < s.length := by
  cases s with
  | mk data =>
    cases data with
    | nil => exact absurd rfl h
    | cons c cs => simp [String.length]

theorem parseDisks_length_le (lines : List String) : (parseDisks lines).length ≤ 32 := by
  unfold parseDisks
  rw [List.length_take]
  omega

theorem diskSelection_frame (lines : List String) (input : String) (st : InstallerState) :
    (diskSelection lines input st).1.hostname = st.hostname ∧
    (diskSelection lines input st).1.username = st.username ∧
    (diskSelection lines input st).1.timezone = st.timezone ∧
    (diskSelection lines input st).1.phase = st.phase := by
  unfold diskSelection
  split <;> exact ⟨rfl, rfl, rfl, rfl⟩

theorem viewLogLoop_eq (ls : List String) (c s n r : Nat) :
    viewLogLoop ls c s n r = ((ls.drop (s - c)).map stripNL).take (r - 3 - n) := by
  induction ls generalizing c n with
  | nil => simp [viewLogLoop]
  | cons l ls ih =>
    simp only [viewLogLoop]
    by_cases h1 : n < r - 3
    · rw [if_pos h1]
      by_cases h2 : s ≤ c
      · have hsc : s - c = 0 := Nat.sub_eq_zero_of_le h2
        have hsc1 : s - (c + 1) = 0 := Nat.sub_eq_zero_of_le (Nat.le_succ_of_le h2)
        rw [if_pos h2, ih (c + 1) (n + 1), hsc, hsc1]
        simp only [List.drop_zero, List.map_cons]
        have htake : r - 3 - n = (r - 3 - (n + 1)) + 1 := by omega
        rw [htake, List.take_succ_cons]
      · rw [if_neg h2, ih (c + 1) n]
        have hdrop : (l :: ls).drop (s - c) = ls.drop (s - (c + 1)) := by
          have hstep : s - c = (s - (c + 1)) + 1 := by omega
          rw [hstep, List.drop_succ_cons]
        rw [hdrop]
    · rw [if_neg h1]
      have hz : r - 3 - n = 0 := by omega
      rw [hz, List.take_zero]

theorem runLoop_eq (ls : List String) (y r : Nat) :
    runLoop ls y r = ((ls.map stripNL).take (r - 3 - y), min ls.length (r - 3 - y + 1)) := by
  induction ls generalizing y with
  | nil => simp [runLoop]
  | cons l ls ih =>
    simp only [runLoop]
    by_cases h : y < r - 3
    · rw [if_pos h, ih (y + 1)]
      have h1 : r - 3 - y = (r - 3 - (y + 1)) + 1 := by omega
      simp only [List.map_cons, List.cons.injEq, Prod.mk.injEq, List.length_cons]
      rw [h1, List.take_succ_cons]
      exact ⟨rfl, by omega⟩
    · rw [if_neg h]
      have hz : r - 3 - y = 0 := by omega
      rw [hz, List.take_zero]
      simp only [Prod.mk.injEq, List.length_cons]
      exact ⟨trivial, by omega⟩

theorem navStep_bounds (s : Int) (k : NavKey) : 0 ≤ navStep s k ∧ navStep s k ≤ 8 := by
  cases k <;> simp [navStep, numOptions] <;> omega

theorem navRun_aux (keys : List NavKey) (s : Int) (h0 : 0 ≤ s) (h8 : s ≤ 8) :
    0 ≤ keys.foldl navStep s ∧ keys.foldl navStep s ≤ 8 := by
  induction keys generalizing s with
  | nil => exact ⟨h0, h8⟩
  | cons k ks ih =>
    simp only [List.foldl_cons]
    exact ih (navStep s k) (navStep_bounds s k).1 (navStep_bounds s k).2

end VoidTUI

namespace VoidTUI

/-! ### Claim theorems -/

/-- C5: for every sequence of Up/Down key events delivered to the 9-option
main menu, the selected index stays within `[0, 8]`, an Up event at index 0
yields 8, and a Down event at index 8 yields 0. -/
theorem c5_menu_nav_wraps (keys : List NavKey) :
    (0 ≤ navRun keys ∧ navRun keys ≤ 8) ∧
    navStep 0 NavKey.up = 8 ∧ navStep 8 NavKey.down = 0 :=
  ⟨navRun_aux keys 0 (by decide) (by decide), by decide, by decide⟩

/-- C10: the confirmation dialog reports confirmation (returns 1) if and only
if the single `getch` key code is `y` or `Y`; every other key — including
`n` (110), Enter (10), and the ncurses KEY_UP navigation code (259) — is a
decline (returns 0). -/
theorem c10_confirm_iff (ch : Int) :
    (confirmDialog ch = 1 ↔ (ch = keyLowerY ∨ ch = keyUpperY)) ∧
    (confirmDialog ch = 0 ↔ ¬ (ch = keyLowerY ∨ ch = keyUpperY)) ∧
    confirmDialog 110 = 0 ∧ confirmDialog 10 = 0 ∧ confirmDialog 259 = 0 := by
  refine ⟨?_, ?_, by decide, by decide, by decide⟩ <;>
  · by_cases h : ch = keyLowerY ∨ ch = keyUpperY <;> simp [confirmDialog, h]

/-- C9: whenever `disk_selection` returns the "no selection" failure result
(-1), the session state is returned exactly as it was passed in — the `disk`
field is written only on the success path. -/
theorem c9_fail_preserves_state (lines : List String) (input : String)
    (st : InstallerState) (h : (diskSelection lines input st).2 = -1) :
    (diskSelection lines input st).1 = st := by
  by_cases hc : 0 ≤ atoi input - 1 ∧ atoi input - 1 < ((parseDisks lines).length : Int)
  · simp only [diskSelection, if_pos hc] at h
    simp at h
  · simp only [diskSelection, if_neg hc]

theorem c9_witness : (diskSelection [] "5" initState).1 = initState :=
  c9_fail_preserves_state [] "5" initState (by decide)

/-- C8: `main` exits with status 1 — with a message on standard error and
before the terminal surface is initialized — if and only if a pre-flight
gate fails (not root, or not UEFI); when both gates pass, the run ends with
status 0 (the only remaining `return` statement). -/
theorem c8_exit_codes (isRoot uefiOk : Bool) :
    ((preflightMain isRoot uefiOk).exitCode = 1 ↔ (isRoot = false ∨ uefiOk = false)) ∧
    ((preflightMain isRoot uefiOk).exitCode = 1 →
      (preflightMain isRoot uefiOk).stderrMsg ≠ none ∧
      (preflightMain isRoot uefiOk).uiShown = false) ∧
    (isRoot = true → uefiOk = true → (preflightMain isRoot uefiOk).exitCode = 0) := by
  cases isRoot <;> cases uefiOk <;> decide

theorem c8_witness :
    (preflightMain false true).stderrMsg ≠ none ∧
    (preflightMain false true).uiShown = false ∧
    (preflightMain true true).exitCode = 0 :=
  ⟨((c8_exit_codes false true).2.1 (by decide)).1,
   ((c8_exit_codes false true).2.1 (by decide)).2,
   (c8_exit_codes true true).2.2 rfl rfl⟩

/-- C2 (counterexample): with the one-entry disk list parsed from
`"sda disk\n"` (so `N = 1`), the input `"1x"` is not a numeral, yet
`disk_selection` succeeds on it (`atoi("1x") = 1`), so success is not
equivalent to the input being a numeral `k` with `1 ≤ k ≤ N`. -/
theorem c2_counterexample :
    ¬ (((diskSelection ["sda disk\n"] "1x" initState).2 = 0) ↔
        ∃ k, numeralValue "1x" = some k ∧ 1 ≤ k ∧
          k ≤ (parseDisks ["sda disk\n"]).length) := by
  intro hIff
  rcases hIff.mp (by decide) with ⟨k, hk, _, _⟩
  rw [(by decide : numeralValue "1x" = (none : Option Nat))] at hk
  exact Option.noConfusion hk

/-- C2 (amended): `disk_selection` succeeds if and only if the C `atoi`
value of the input lies in `[1, N]`, where `N ≤ 32` is the number of parsed
disk entries; every other input (in particular any input when the listing
subprocess failed to start and the list is empty) yields the -1 "no
selection" result, never a crash (the result is always 0 or -1); on success
the state's `disk` field is set to the chosen entry. -/
theorem c2_selection_range_amended (lines : List String) (input : String)
    (st : InstallerState) :
    (((diskSelection lines input st).2 = 0) ↔
      (1 ≤ atoi input ∧ atoi input ≤ ((parseDisks lines).length : Int))) ∧
    ((diskSelection lines input st).2 = 0 ∨ (diskSelection lines input st).2 = -1) ∧
    (parseDisks lines).length ≤ 32 ∧
    ((diskSelection lines input st).2 = 0 →
      (diskSelection lines input st).1.disk =
        (parseDisks lines).getD (atoi input - 1).toNat "") := by
  by_cases hc : 0 ≤ atoi input - 1 ∧ atoi input - 1 < ((parseDisks lines).length : Int)
  · unfold diskSelection
    rw [if_pos hc]
    exact ⟨⟨fun _ => by omega, fun _ => rfl⟩, Or.inl rfl, parseDisks_length_le lines,
      fun _ => rfl⟩
  · unfold diskSelection
    rw [if_neg hc]
    refine ⟨⟨fun habs => by simp at habs, fun hk => absurd (?_ : 0 ≤ atoi input - 1 ∧
        atoi input - 1 < ((parseDisks lines).length : Int)) hc⟩,
      Or.inr rfl, parseDisks_length_le lines, fun habs => by simp at habs⟩
    omega

theorem c2_amended_witness :
    (diskSelection ["sda disk\n"] "1" initState).1.disk = "/dev/sda" := by
  have h := (c2_selection_range_amended ["sda disk\n"] "1" initState).2.2.2 (by decide)
  rw [h]
  decide

end VoidTUI

namespace VoidTUI

/-- C3 (counterexample): a submitted line of 256 `a` characters does not end
up in the field verbatim — the `strncpy(field, buf, MAX_PATH - 1)` bound
keeps only its first 255 characters. -/
theorem c3_counterexample :
    promptUpdate "void-fortress" (String.mk (List.replicate 256 'a')) ≠
      String.mk (List.replicate 256 'a') := by
  intro h
  have hlen := congrArg String.length h
  have h256 : (String.mk (List.replicate 256 'a')).length = 256 := by
    rw [string_length_mk, List.length_replicate]
  have hpos : (String.mk (List.replicate 256 'a')).length > 0 := by omega
  unfold promptUpdate at hlen
  rw [if_pos hpos] at hlen
  have h255 : (trunc 255 (String.mk (List.replicate 256 'a'))).length = 255 := by
    unfold trunc
    rw [string_length_mk]
    show ((List.replicate 256 'a').take 255).length = 255
    rw [List.length_take, List.length_replicate]
    omega
  omega

/-- C3 (amended): at the hostname and username prompts, an empty submitted
line leaves the field unchanged, and a non-empty line replaces the field with
the submitted string truncated to its first 255 characters (the `strncpy`
count for the fixed 256-byte field) — verbatim whenever the line is at most
255 characters long; no trimming and no character validation is applied. -/
theorem c3_prompt_amended (prior input : String) :
    (input = "" → promptUpdate prior input = prior) ∧
    (input ≠ "" → promptUpdate prior input = trunc 255 input) ∧
    (input ≠ "" → input.length ≤ 255 → promptUpdate prior input = input) := by
  refine ⟨fun h => ?_, fun h => ?_, fun h hle => ?_⟩
  · subst h
    rfl
  · have hl : input.length > 0 := length_pos_of_ne_empty input h
    simp [promptUpdate, hl]
  · have hl : input.length > 0 := length_pos_of_ne_empty input h
    simp [promptUpdate, hl, trunc_of_le 255 input hle]

theorem c3_witness :
    promptUpdate "void-fortress" "myhost" = "myhost" ∧
    promptUpdate "void-fortress" "" = "void-fortress" :=
  ⟨(c3_prompt_amended "void-fortress" "myhost").2.2 (by decide) (by decide),
   (c3_prompt_amended "void-fortress" "").1 rfl⟩

/-- C4 (counterexample): on a 24-row screen, a log file of 20 lines displays
only 8 lines (rows 13 through 20), not `min(20, 20) = 20` — the printing loop
also stops at `LINES - 3`. -/
theorem c4_counterexample :
    (viewLog (List.replicate 20 "x\n") 24).length ≠
      min (List.replicate 20 "x\n").length 20 := by
  decide

/-- C4 (amended): for a log file of `T` raw lines on a screen of `rows` total
rows, the log view displays the first `rows - 16` of the chronologically last
`min(T, 20)` lines, in original order, with trailing newlines stripped;
whenever `rows ≥ 36` this is exactly the last `min(T, 20)` lines. -/
theorem c4_logview_amended (fileLines : List String) (rows : Nat) :
    viewLog fileLines rows =
      ((fileLines.drop (fileLines.length - 20)).map stripNL).take (rows - 16) ∧
    (36 ≤ rows →
      viewLog fileLines rows = (fileLines.drop (fileLines.length - 20)).map stripNL ∧
      (viewLog fileLines rows).length = min fileLines.length 20) := by
  have hstart : (if fileLines.length > 20 then fileLines.length - 20 else 0) =
      fileLines.length - 20 := by
    split <;> omega
  have h1 : viewLog fileLines rows =
      ((fileLines.drop (fileLines.length - 20)).map stripNL).take (rows - 16) := by
    unfold viewLog
    rw [hstart, viewLogLoop_eq]
    have h13 : rows - 3 - 13 = rows - 16 := by omega
    rw [h13, Nat.sub_zero]
  have hlen : ((fileLines.drop (fileLines.length - 20)).map stripNL).length =
      min fileLines.length 20 := by
    rw [List.length_map, List.length_drop]
    omega
  refine ⟨h1, fun hr => ?_⟩
  have hfull : viewLog fileLines rows =
      (fileLines.drop (fileLines.length - 20)).map stripNL := by
    rw [h1]
    apply List.take_of_length_le
    rw [hlen]
    omega
  exact ⟨hfull, by rw [hfull, hlen]⟩

theorem c4_witness : viewLog ["a\n", "b\n"] 40 = ["a", "b"] := by
  have h := ((c4_logview_amended ["a\n", "b\n"] 40).2 (by decide)).1
  rw [h]
  decide

/-- C6 (counterexample): on a 24-row screen, a subprocess that emits 20
output lines has only 17 of them read from the pipe before the loop stops
(16 displayed plus one consumed past the limit) — its output is not fully
drained. -/
theorem c6_counterexample :
    (runCommand (List.replicate 20 "out\n") 24).2 ≠
      (List.replicate 20 "out\n").length := by
  decide

/-- C6 (amended): the Command Runner displays exactly the first `rows - 8`
output lines (lines beyond the available screen rows are never displayed),
and it reads at most one line past that limit: the number of lines consumed
from the pipe is `min(total, rows - 8 + 1)`.  After the loop, `pclose` waits
for the subprocess to terminate before the acknowledgment key press, but the
remaining output is not drained. -/
theorem c6_runner_amended (output : List String) (rows : Nat) :
    (runCommand output rows).1 = (output.map stripNL).take (rows - 8) ∧
    (runCommand output rows).2 = min output.length (rows - 8 + 1) := by
  unfold runCommand
  rw [runLoop_eq]
  have h5 : rows - 3 - 5 = rows - 8 := by omega
  rw [h5]
  exact ⟨rfl, rfl⟩

/-- C1: in end-to-end scenario 1 (default hostname `void-fortress`, 3-entry
disk list, disk 1 = `/dev/sda` chosen, destructive warning confirmed with
`y`, empty lines at both prompts), the command passed to the Command Runner
contains the substring
`DISK=/dev/sda HOSTNAME=void-fortress USERNAME=nx TIMEZONE=America/Sao_Paulo`. -/
theorem c1_scenario1_command :
    ∃ cmd, (newInstallation scenario1Lines "1" 121 "" "" initState).2 = some cmd ∧
      containsSub "DISK=/dev/sda HOSTNAME=void-fortress USERNAME=nx TIMEZONE=America/Sao_Paulo"
        cmd :=
  ⟨"DISK=/dev/sda HOSTNAME=void-fortress USERNAME=nx TIMEZONE=America/Sao_Paulo bash voidnx.sh",
    by decide, "", " bash voidnx.sh", by decide⟩

/-- C7: when disk selection succeeds but the destructive-action confirmation
is declined, the flow returns the state produced by disk selection with no
command ever run; that state differs from the prior state in no field other
than `disk`, and control returns to the main menu loop (`running` stays
true after case 1). -/
theorem c7_decline_frame (lines : List String) (input : String) (key : Int)
    (hostIn userIn : String) (st : InstallerState)
    (hsel : (diskSelection lines input st).2 = 0)
    (hdecl : confirmDialog key = 0) :
    newInstallation lines input key hostIn userIn st =
      ((diskSelection lines input st).1, none) ∧
    (diskSelection lines input st).1.hostname = st.hostname ∧
    (diskSelection lines input st).1.username = st.username ∧
    (diskSelection lines input st).1.timezone = st.timezone ∧
    (diskSelection lines input st).1.phase = st.phase ∧
    runningAfterChoice 1 = true := by
  have hne : ¬ confirmDialog key = 1 := by
    rw [hdecl]
    decide
  refine ⟨?_, (diskSelection_frame lines input st).1,
    (diskSelection_frame lines input st).2.1,
    (diskSelection_frame lines input st).2.2.1,
    (diskSelection_frame lines input st).2.2.2, rfl⟩
  unfold newInstallation
  rw [if_pos hsel, if_neg hne]

theorem c7_witness :
    newInstallation ["sda disk\n"] "1" 110 "h" "u" initState =
      ((diskSelection ["sda disk\n"] "1" initState).1, none) :=
  (c7_decline_frame ["sda disk\n"] "1" 110 "h" "u" initState (by decide) (by decide)).1

end VoidTUI
